import Mathlib

/-!
Verification of the ForensicsToolkit core against its specification.

The development shallowly embeds the two core modules:

* `src/crypto/decryptor.py` (`WhatsAppDecryptor`): key loading, format
  detection, crypt12/crypt14 decryption and the crypt12 inverse
  construction. File contents are modelled as `List Nat` byte strings;
  Python slices `b[a:c]` become `(l.take c).drop a`; a method that
  returns `False` / raises inside its `try` block (producing no output
  file) is modelled as `Option`/`Except` failure. The third-party
  primitives (pycryptodome AES-GCM without tag verification, zlib) are
  not code of this repository; they enter as an explicit `CryptoLib`
  record of functions, and the theorems that need their algebra
  (round-trip inverses) take it as hypotheses.

* `src/parsing/parser.py` (`WhatsAppParser`): the schema-probing
  entity extraction. A SQL query executed against the SQLite library
  either yields rows, fails with `sqlite3.OperationalError` (schema
  mismatch), or fails with some other database-level error; this
  three-way outcome is the `QueryOutcome` type, and each entity
  operation is a function of the outcomes of its ordered query
  variants, mirroring the Python control flow (inner
  `except OperationalError: continue`, outer `except Exception`).
  The `ORDER BY` / `WHERE` / `LIMIT` / `DISTINCT` clauses of the
  message and contact queries are given their SQL semantics over the
  underlying table rows.
-/

set_option maxRecDepth 8000

namespace ForensicsToolkit

/-- Raw bytes of a file, one `Nat` per byte. -/
abbrev Bytes := List Nat

/-- Python slice `l[a:c]` for `0 ≤ a ≤ c` (clamping at the ends like Python). -/
def pySlice (l : Bytes) (a c : Nat) : Bytes :=
  (l.take c).drop a

/-! ## Crypto module: `src/crypto/decryptor.py` -/

/-- The `EncryptionType` enum of `decryptor.py`. -/
inductive EncryptionType where
  | CRYPT12
  | CRYPT14
  | CRYPT15
  | UNENCRYPTED
deriving DecidableEq

/-- The 16 bytes of `b"SQLite format 3\x00"`, the SQLite magic checked by
`detect_encryption_type`. -/
def sqliteMagic : Bytes :=
  [83, 81, 76, 105, 116, 101, 32, 102, 111, 114, 109, 97, 116, 32, 51, 0]

/-- `WhatsAppDecryptor.detect_encryption_type`. The Python checks
`Path(db_file).suffix` against the three crypt extensions first; only in the
final `else` branch does it read the first 16 bytes and test the SQLite magic,
then the three-zero-byte heuristic, defaulting to `UNENCRYPTED`.
`suffix` is the extension of the file (as returned by `Path.suffix`),
`content` the bytes of the file. -/
def detect_encryption_type (suffix : String) (content : Bytes) : EncryptionType :=
  if suffix = ".crypt12" then .CRYPT12
  else if suffix = ".crypt14" then .CRYPT14
  else if suffix = ".crypt15" then .CRYPT15
  else if content.take 16 = sqliteMagic then .UNENCRYPTED
  else if content.take 3 = [0, 0, 0] then .CRYPT14
  else .UNENCRYPTED

/-- `WhatsAppDecryptor._load_key` on the bytes of the key file.
`none` models the `ValueError("Invalid key file size ...")` raised for
files shorter than 32 bytes. For `len ≥ 158` the Python returns
`key_data[126:]` — every byte from offset 126 on, not just 32 of them. -/
def load_key (key_data : Bytes) : Option Bytes :=
  if key_data.length ≥ 158 then some (key_data.drop 126)
  else if key_data.length ≥ 32 then some (key_data.drop (key_data.length - 32))
  else none

/-- The third-party primitives used by the decryptor: `AES.new(key, MODE_GCM,
nonce=iv).encrypt/decrypt` (no tag verification anywhere in the module) and
`zlib.compress` / `zlib.decompress` (`none` models `zlib.error`). They are
library code, not part of this repository, so they are a parameter of the
embedding. -/
structure CryptoLib where
  aesGcmEncrypt : Bytes → Bytes → Bytes → Bytes
  aesGcmDecrypt : Bytes → Bytes → Bytes → Bytes
  zlibCompress : Bytes → Bytes
  zlibDecompress : Bytes → Option Bytes

/-- `WhatsAppDecryptor.decrypt_crypt12` on the bytes of the encrypted file.
`none` models `return False` (any exception in the `try` block; no output
file written), `some out` models a successful write of `out` followed by
`return True`. -/
def decrypt_crypt12 (lib : CryptoLib) (key db_data : Bytes) : Option Bytes :=
  if db_data.length < 87 then none
  else
    let iv := pySlice db_data 51 67
    let encrypted_data := pySlice db_data 67 (db_data.length - 20)
    let decrypted_data := lib.aesGcmDecrypt key iv encrypted_data
    lib.zlibDecompress decrypted_data

/-- The ciphertext region `decrypt_crypt14` slices for a candidate offset:
`db_data[offset:-20] if len(db_data) > offset + 20 else db_data[offset:]`. -/
def crypt14_encrypted_data (db_data : Bytes) (offset : Nat) : Bytes :=
  if db_data.length > offset + 20 then pySlice db_data offset (db_data.length - 20)
  else db_data.drop offset

/-- One iteration of the `decrypt_crypt14` offset loop: AES-GCM decrypt the
candidate ciphertext region with the IV taken from bytes 67..83, then try to
`zlib.decompress` the result; `some` is the decompressed output on success. -/
def crypt14_attempt (lib : CryptoLib) (key iv db_data : Bytes) (offset : Nat) : Option Bytes :=
  lib.zlibDecompress (lib.aesGcmDecrypt key iv (crypt14_encrypted_data db_data offset))

/-- The `for offset in range(185, 196)` loop of `decrypt_crypt14`: the first
offset whose attempt succeeds wins; if every attempt fails the final
iteration re-raises and the outer handler returns `False`. -/
def crypt14_try (lib : CryptoLib) (key iv db_data : Bytes) : List Nat → Option Bytes
  | [] => none
  | offset :: rest =>
    match crypt14_attempt lib key iv db_data offset with
    | some out => some out
    | none => crypt14_try lib key iv db_data rest

/-- The candidate body-start offsets `range(185, 196)` of `decrypt_crypt14`. -/
def crypt14_offsets : List Nat := List.range' 185 11

/-- `WhatsAppDecryptor.decrypt_crypt14` on the bytes of the encrypted file. -/
def decrypt_crypt14 (lib : CryptoLib) (key db_data : Bytes) : Option Bytes :=
  if db_data.length < 195 then none
  else crypt14_try lib key (pySlice db_data 67 83) db_data crypt14_offsets

/-- `WhatsAppDecryptor.encrypt_crypt12`: header and IV are copied from the
first 67 bytes of the reference container, the footer from its last 20;
the plaintext is zlib-compressed, AES-GCM encrypted, and framed. -/
def encrypt_crypt12 (lib : CryptoLib) (key db_data ref_data : Bytes) : Bytes :=
  let header := ref_data.take 51
  let iv := pySlice ref_data 51 67
  let footer := ref_data.drop (ref_data.length - 20)
  let compressed := lib.zlibCompress db_data
  let encrypted := lib.aesGcmEncrypt key iv compressed
  header ++ iv ++ encrypted ++ footer

/-- A concrete instantiation of the library record used to evaluate the
conditional theorems on explicit inputs: a shift cipher in place of AES-GCM
(which is its own inverse construction with the same key and nonce) and a
tagged copy in place of DEFLATE. -/
def testLib : CryptoLib where
  aesGcmEncrypt := fun _ _ d => d.map (fun b => (b + 1) % 256)
  aesGcmDecrypt := fun _ _ d => d.map (fun b => (b + 255) % 256)
  zlibCompress := fun d => 120 :: d
  zlibDecompress := fun d =>
    match d with
    | 120 :: rest => some rest
    | _ => none

/-! ## Parser module: `src/parsing/parser.py` -/

/-- Outcome of executing one SQL query variant against the SQLite library:
either rows come back, or the variant fails with
`sqlite3.OperationalError` (missing table / column — the schema-probe
miss), or some other database-level error is raised. -/
inductive QueryOutcome (ρ : Type) where
  | rows (rs : List ρ)
  | schemaError
  | dbError
deriving DecidableEq

/-- Python truthiness of an optional string (`None` and `""` are falsy). -/
def pyTruthyStr (s : Option (List Char)) : Bool :=
  match s with
  | some cs => !cs.isEmpty
  | none => false

/-- Python `a or b` on optional strings, as in
`display_name or self._get_contact_name(jid)`. -/
def pyOrStr (a b : Option (List Char)) : Option (List Char) :=
  if pyTruthyStr a then a else b

/-- Python `sub in s` substring containment. -/
def pyContains (sub s : List Char) : Bool :=
  s.tails.any (fun t => List.isPrefixOf sub t)

/-- Python `s.lower()` (per-character lowercasing). -/
def pyLower (s : List Char) : List Char :=
  s.map Char.toLower

/-- The group test of `get_chats`:
`jid.endswith("@g.us") or "group" in jid.lower()`. -/
def is_group_jid (jid : List Char) : Bool :=
  List.isSuffixOf "@g.us".toList jid || pyContains "group".toList (pyLower jid)

/-- The `ParseError` of the specification: the non-schema database-level
failure that `get_chats` / `get_messages` re-raise from their outer
`except` block. -/
inductive PErr where
  | parseError
deriving DecidableEq

/-- The `Chat` dataclass (the `messages` field, populated in a separate
pass, is omitted; no claim touches it). -/
structure Chat where
  jid : List Char
  display_name : Option (List Char)
  last_message_timestamp : Option Int
  message_count : Nat
  participants : List (List Char)
  is_group : Bool
deriving DecidableEq

/-- One row of a successful `get_chats` query variant. The three variants
alias different columns; the processing loop probes `row.keys()` for
`last_message_timestamp` / `last_message_table_row_id` /
`last_message_row_id`, which collapses here to one optional field (absent
column = `none`). -/
structure ChatRow where
  jid : List Char
  display_name : Option (List Char)
  last_message_timestamp : Option Int
  message_count : Nat
deriving DecidableEq

/-- Inputs of `get_chats`: the outcomes of its three query variants (simple,
modern, legacy, in the order the Python tries them), the contacts cache
loaded from `wa.db` at construction (`_get_contact_name`), and the result of
`_get_group_participants` (which swallows every exception and always returns
a list). -/
structure ChatsDb where
  q_simple : QueryOutcome ChatRow
  q_modern : QueryOutcome ChatRow
  q_legacy : QueryOutcome ChatRow
  contacts_cache : List Char → Option (List Char)
  participants : List Char → List (List Char)


/-- The row-processing body of `get_chats`: derive `is_group`, fall back to
the contacts cache for the display name, and query participants only for
group chats. -/
def rowToChat (db : ChatsDb) (r : ChatRow) : Chat :=
  let is_group := is_group_jid r.jid
  { jid := r.jid
    display_name := pyOrStr r.display_name (db.contacts_cache r.jid)
    last_message_timestamp := r.last_message_timestamp
    message_count := r.message_count
    participants := if is_group then db.participants r.jid else []
    is_group := is_group }

/-- `WhatsAppParser.get_chats`: try the three query variants in order;
`OperationalError` advances to the next variant, exhausting all three
leaves the accumulator empty; any other error reaches the outer handler,
which re-raises (`Except.error`). -/
def get_chats (db : ChatsDb) : Except PErr (List Chat) :=
  match db.q_simple with
  | .rows rs => .ok (rs.map (rowToChat db))
  | .dbError => .error .parseError
  | .schemaError =>
    match db.q_modern with
    | .rows rs => .ok (rs.map (rowToChat db))
    | .dbError => .error .parseError
    | .schemaError =>
      match db.q_legacy with
      | .rows rs => .ok (rs.map (rowToChat db))
      | .dbError => .error .parseError
      | .schemaError => .ok []

/-- The `Message` dataclass. Query variants that do not select a column
produce `none` in that field. -/
structure Message where
  message_id : Int
  chat_jid : List Char
  timestamp : Int
  from_me : Bool
  message_text : Option (List Char)
  media_type : Option Int
  media_path : Option (List Char)
  media_caption : Option (List Char)
  quoted_message_id : Option Int
  remote_resource : Option (List Char)
  status : Option Int
deriving DecidableEq

/-- Insert a message into a timestamp-sorted list, keeping it sorted:
the building block for the SQL `ORDER BY timestamp ASC` semantics. -/
def insertByTs (m : Message) : List Message → List Message
  | [] => [m]
  | x :: xs => if m.timestamp ≤ x.timestamp then m :: x :: xs else x :: insertByTs m xs

/-- SQL `ORDER BY timestamp ASC` over a bag of rows (insertion sort). -/
def orderByTsAsc : List Message → List Message
  | [] => []
  | x :: xs => insertByTs x (orderByTsAsc xs)

/-- Python truthiness of an optional integer (`None` and `0` are falsy), as
in `if limit:`. -/
def pyTruthyNat (n : Option Nat) : Bool :=
  match n with
  | some k => k ≠ 0
  | none => false

/-- SQL semantics of the `get_messages` query built at runtime over a
a given message table of a variant: the `WHERE key_remote_jid = ?` clause is added
only when `chat_jid` is truthy, then `ORDER BY timestamp ASC`, then
`LIMIT` only when `limit` is truthy. -/
def run_message_query (table : List Message) (chat_jid : Option (List Char))
    (limit : Option Nat) : List Message :=
  let filtered :=
    if pyTruthyStr chat_jid then table.filter (fun m => m.chat_jid = chat_jid.getD [])
    else table
  let ordered := orderByTsAsc filtered
  if pyTruthyNat limit then ordered.take (limit.getD 0) else ordered

/-- Inputs of `get_messages`: the underlying table of each of the three
query variants (full `message`, simple `message`, legacy `messages`), or
the error its execution raises. -/
structure MessagesDb where
  q_message_full : QueryOutcome Message
  q_message_simple : QueryOutcome Message
  q_messages_legacy : QueryOutcome Message


/-- `WhatsAppParser.get_messages`: try the three variants in order;
`OperationalError` advances to the next, any other error re-raises via the
outer handler. -/
def get_messages (db : MessagesDb) (chat_jid : Option (List Char))
    (limit : Option Nat) : Except PErr (List Message) :=
  match db.q_message_full with
  | .rows t => .ok (run_message_query t chat_jid limit)
  | .dbError => .error .parseError
  | .schemaError =>
    match db.q_message_simple with
    | .rows t => .ok (run_message_query t chat_jid limit)
    | .dbError => .error .parseError
    | .schemaError =>
      match db.q_messages_legacy with
      | .rows t => .ok (run_message_query t chat_jid limit)
      | .dbError => .error .parseError
      | .schemaError => .ok []

/-- The `CallLog` dataclass. -/
structure CallLog where
  call_id : Int
  jid : List Char
  timestamp : Int
  from_me : Bool
  duration : Int
  video_call : Bool
  call_result : Option Int
deriving DecidableEq

/-- One row of a `get_call_logs` query variant. -/
structure CallRow where
  call_id : Int
  jid : List Char
  timestamp : Int
  from_me : Bool
  duration : Int
  video_call : Bool
  call_result : Option Int
deriving DecidableEq

/-- Inputs of `get_call_logs`: the outcomes of its two query variants
(`call_log` join, then legacy `calls`). -/
structure CallLogsDb where
  q_call_log : QueryOutcome CallRow
  q_calls : QueryOutcome CallRow


/-- `WhatsAppParser.get_call_logs`. Unlike `get_chats`/`get_messages`, its
outer `except Exception` block only logs a warning and the function then
returns the accumulated list, so no input makes it raise. Moreover its row
loop calls `row.get(...)` for the duration on a `sqlite3.Row`, which has no `get`
method (the code itself notes this in `get_chats` and `get_contacts`), so
building the first `CallLog` of a non-empty result raises `AttributeError`;
the outer handler catches it and returns the rows accumulated before the
failure — none. Every path therefore yields `.ok []`. -/
def get_call_logs (db : CallLogsDb) : Except PErr (List CallLog) :=
  match db.q_call_log with
  | .rows _ => .ok []
  | .dbError => .ok []
  | .schemaError =>
    match db.q_calls with
    | .rows _ => .ok []
    | .dbError => .ok []
    | .schemaError => .ok []

/-- The `Contact` dataclass together with its `__post_init__`: the phone
number is derived from the local part of the jid when not supplied. -/
structure Contact where
  jid : List Char
  display_name : Option (List Char)
  phone_number : Option (List Char)
deriving DecidableEq

/-- Construct a `Contact` the way the parser does (`phone_number` left to
`__post_init__`): `jid.split("@")[0] if "@" in jid else jid`, skipped for a
falsy jid. -/
def mk_contact (jid : List Char) (display_name : Option (List Char)) : Contact :=
  { jid := jid
    display_name := display_name
    phone_number :=
      if jid.isEmpty then none
      else if jid.contains '@' then some (jid.takeWhile (fun c => c ≠ '@'))
      else some jid }

/-- One row of a `wa.db` contact query (`SELECT jid, display_name FROM ...`). -/
structure WaRow where
  jid : List Char
  display_name : Option (List Char)
deriving DecidableEq

/-- The three `wa.db` query variants probed by `get_contacts`
(`wa_contacts`, `contacts`, `user`). -/
structure WaDb where
  q_wa_contacts : QueryOutcome WaRow
  q_contacts : QueryOutcome WaRow
  q_user : QueryOutcome WaRow


/-- Row loop of the `wa.db` part of `get_contacts`: rows with a falsy jid
are skipped, the rest become contacts. -/
def wa_rows_to_contacts (rs : List WaRow) : List Contact :=
  rs.filterMap (fun r => if r.jid.isEmpty then none else some (mk_contact r.jid r.display_name))

/-- The `wa.db` part of `get_contacts`: probe the three table names in
order; a schema miss advances, a success breaks, any other error is caught
by the surrounding handler with the accumulator (still empty) kept. -/
def wa_contacts_part (wa : WaDb) : List Contact :=
  match wa.q_wa_contacts with
  | .rows rs => wa_rows_to_contacts rs
  | .dbError => []
  | .schemaError =>
    match wa.q_contacts with
    | .rows rs => wa_rows_to_contacts rs
    | .dbError => []
    | .schemaError =>
      match wa.q_user with
      | .rows rs => wa_rows_to_contacts rs
      | .dbError => []
      | .schemaError => []

/-- Inputs of `get_contacts`: the optional `wa.db` (absent when the parser
was built without one), and the `message` and `contacts` tables of
`msgstore.db` (`none` = table missing, which makes the inference query fail
with `OperationalError`, silently passed). -/
structure GetContactsDb where
  wa_db : Option WaDb
  message_table : Option (List Message)
  contacts_table : Option (List (List Char))

/-- SQL semantics of the jid-inference query of `get_contacts`:
`SELECT DISTINCT key_remote_jid FROM message WHERE key_remote_jid NOT IN
(SELECT jid FROM (SELECT jid FROM contacts LIMIT 1))` — the subquery is the
first row of the msgstore `contacts` table only (`LIMIT 1`). -/
def message_union_jids (msgs : List Message) (contacts_jids : List (List Char)) :
    List (List Char) :=
  ((msgs.map (fun m => m.chat_jid)).filter (fun j => !(contacts_jids.take 1).contains j)).dedup

/-- `WhatsAppParser.get_contacts`: the `wa.db` contacts first, then — only
when both the `message` and the `contacts` table exist in `msgstore.db` —
each inferred jid not already carried by some contact is appended as a
`Contact` with no display name. Both halves swallow their errors, so the
operation is total. -/
def get_contacts (db : GetContactsDb) : List Contact :=
  let contacts :=
    match db.wa_db with
    | none => []
    | some wa => wa_contacts_part wa
  match db.message_table, db.contacts_table with
  | some msgs, some cjids =>
    (message_union_jids msgs cjids).foldl
      (fun acc jid => if acc.any (fun c => c.jid = jid) then acc else acc ++ [mk_contact jid none])
      contacts
  | _, _ => contacts

/-! ## Claims about the crypto module -/

/-- C1 (counterexample): a file whose bytes are exactly the SQLite signature
but whose path ends in `.crypt12` is classified `CRYPT12`, not
`UNENCRYPTED` — the extension checks run before the content check, so the
"regardless of extension" half of the claim fails. -/
theorem C1_counterexample :
    detect_encryption_type ".crypt12" sqliteMagic = EncryptionType.CRYPT12 ∧
    EncryptionType.CRYPT12 ≠ EncryptionType.UNENCRYPTED := by
  exact ⟨rfl, by decide⟩

/-- C1 (amended): for every file whose extension is none of `.crypt12`,
`.crypt14`, `.crypt15` and whose first 16 bytes are exactly the SQLite
signature, `detect_encryption_type` returns `UNENCRYPTED`. -/
theorem C1_sqlite_magic_unencrypted (suffix : String) (content : Bytes)
    (h12 : suffix ≠ ".crypt12") (h14 : suffix ≠ ".crypt14") (h15 : suffix ≠ ".crypt15")
    (hmagic : content.take 16 = sqliteMagic) :
    detect_encryption_type suffix content = EncryptionType.UNENCRYPTED := by
  simp [detect_encryption_type, h12, h14, h15, hmagic]

/-- C1 (witness): the amended theorem evaluated on a `.db` file that starts
with the SQLite signature. -/
theorem C1_witness :
    detect_encryption_type ".db" (sqliteMagic ++ [1, 2, 3]) = EncryptionType.UNENCRYPTED :=
  C1_sqlite_magic_unencrypted ".db" (sqliteMagic ++ [1, 2, 3])
    (by decide) (by decide) (by decide) (by decide)

/-- C2 (counterexample): a 159-byte key file is accepted and yields the 33
bytes from offset 126 on — `key_data[126:]` — so the loaded key does not
have length 32 as the claim requires for every file of length ≥ 158. -/
theorem C2_counterexample :
    load_key (List.replicate 159 7) = some (List.replicate 33 7) ∧
    (List.replicate 33 (7 : Nat)).length ≠ 32 := by
  constructor
  · rfl
  · decide

/-- C2 (amended): for a key file of length ≥ 158 the loaded key is every
byte from offset 126 on (length `len - 126`, which is 32 exactly when the
file is 158 bytes long); for lengths in [32,157] it is the last 32 bytes
(length exactly 32); below 32 bytes loading fails. -/
theorem C2_load_key (kd : Bytes) :
    (158 ≤ kd.length →
      load_key kd = some (kd.drop 126) ∧ (kd.drop 126).length = kd.length - 126) ∧
    (32 ≤ kd.length → kd.length ≤ 157 →
      load_key kd = some (kd.drop (kd.length - 32)) ∧
        (kd.drop (kd.length - 32)).length = 32) ∧
    (kd.length < 32 → load_key kd = none) := by
  refine ⟨fun h => ⟨?_, ?_⟩, fun h1 h2 => ⟨?_, ?_⟩, fun h => ?_⟩
  · rw [load_key, if_pos (by omega)]
  · rw [List.length_drop]
  · rw [load_key, if_neg (by omega), if_pos (by omega)]
  · rw [List.length_drop]; omega
  · rw [load_key, if_neg (by omega), if_neg (by omega)]

/-- C2 (witness): the amended theorem evaluated on a 158-byte file, a
40-byte file and a 10-byte file. -/
theorem C2_witness :
    (load_key (List.replicate 158 0) = some ((List.replicate 158 (0 : Nat)).drop 126) ∧
      ((List.replicate 158 (0 : Nat)).drop 126).length = (List.replicate 158 (0 : Nat)).length - 126) ∧
    (load_key (List.replicate 40 5) =
        some ((List.replicate 40 (5 : Nat)).drop ((List.replicate 40 (5 : Nat)).length - 32)) ∧
      ((List.replicate 40 (5 : Nat)).drop ((List.replicate 40 (5 : Nat)).length - 32)).length = 32) ∧
    load_key (List.replicate 10 1) = none :=
  ⟨(C2_load_key (List.replicate 158 0)).1 (by decide),
   (C2_load_key (List.replicate 40 5)).2.1 (by decide) (by decide),
   (C2_load_key (List.replicate 10 1)).2.2 (by decide)⟩

/-- C5: a CRYPT12 input shorter than 87 bytes makes `decrypt_crypt12` fail
with no output, and a CRYPT14 input shorter than 195 bytes makes
`decrypt_crypt14` fail with no output, for every key and every library
behaviour. -/
theorem C5_min_size (lib : CryptoLib) (key db12 db14 : Bytes) :
    (db12.length < 87 → decrypt_crypt12 lib key db12 = none) ∧
    (db14.length < 195 → decrypt_crypt14 lib key db14 = none) := by
  constructor
  · intro h
    rw [decrypt_crypt12, if_pos h]
  · intro h
    rw [decrypt_crypt14, if_pos h]

/-- C5 (witness): the fast-fail evaluated on an 86-byte and a 194-byte
input with the concrete test library. -/
theorem C5_witness :
    decrypt_crypt12 testLib [0] (List.replicate 86 0) = none ∧
    decrypt_crypt14 testLib [0] (List.replicate 194 0) = none :=
  ⟨(C5_min_size testLib [0] (List.replicate 86 0) (List.replicate 194 0)).1 (by decide),
   (C5_min_size testLib [0] (List.replicate 86 0) (List.replicate 194 0)).2 (by decide)⟩

/-- C10: the trailing 20 bytes of a CRYPT12 container never influence
decryption — two inputs of equal length ≥ 87 that agree outside their last
20 bytes produce the same outcome and, on success, the same plaintext (the
AEAD tag is sliced off and never verified). -/
theorem C10_footer_ignored (lib : CryptoLib) (key d1 d2 : Bytes)
    (hlen : d1.length = d2.length) (h87 : 87 ≤ d1.length)
    (hpre : d1.take (d1.length - 20) = d2.take (d2.length - 20)) :
    decrypt_crypt12 lib key d1 = decrypt_crypt12 lib key d2 := by
  have hiv : pySlice d1 51 67 = pySlice d2 51 67 := by
    have h1 : d1.take 67 = (d1.take (d1.length - 20)).take 67 := by
      rw [List.take_take]
      congr 1
      omega
    have h2 : d2.take 67 = (d2.take (d2.length - 20)).take 67 := by
      rw [List.take_take]
      congr 1
      omega
    show (d1.take 67).drop 51 = (d2.take 67).drop 51
    rw [h1, h2, hpre]
  have henc : pySlice d1 67 (d1.length - 20) = pySlice d2 67 (d2.length - 20) := by
    show (d1.take (d1.length - 20)).drop 67 = (d2.take (d2.length - 20)).drop 67
    rw [hpre]
  rw [decrypt_crypt12, decrypt_crypt12, if_neg (by omega), if_neg (by omega)]
  simp only [hiv, henc]

/-- C10 (witness): two concrete 97-byte containers differing only in their
20-byte footers decrypt identically under the test library. -/
theorem C10_witness :
    decrypt_crypt12 testLib [1] (List.replicate 77 0 ++ List.replicate 20 9) =
      decrypt_crypt12 testLib [1] (List.replicate 77 0 ++ List.replicate 20 4) :=
  C10_footer_ignored testLib [1]
    (List.replicate 77 0 ++ List.replicate 20 9)
    (List.replicate 77 0 ++ List.replicate 20 4)
    (by decide) (by decide) (by decide)

/-- C4: encrypt-then-decrypt round trip for CRYPT12. For every plaintext,
key and reference container of length ≥ 87 (supplying the 51-byte header,
16-byte IV and 20-byte footer), provided the GCM decryption of the library
inverts its GCM encryption under the same key and IV and zlib decompression
inverts compression, `decrypt_crypt12` recovers the plaintext from
the output of `encrypt_crypt12` byte-for-byte. -/
theorem C4_roundtrip (lib : CryptoLib) (key pt ref : Bytes)
    (href : 87 ≤ ref.length)
    (hgcm : lib.aesGcmDecrypt key (pySlice ref 51 67)
        (lib.aesGcmEncrypt key (pySlice ref 51 67) (lib.zlibCompress pt)) =
        lib.zlibCompress pt)
    (hzlib : lib.zlibDecompress (lib.zlibCompress pt) = some pt) :
    decrypt_crypt12 lib key (encrypt_crypt12 lib key pt ref) = some pt := by
  have hout : encrypt_crypt12 lib key pt ref =
      ref.take 51 ++ pySlice ref 51 67 ++
        lib.aesGcmEncrypt key (pySlice ref 51 67) (lib.zlibCompress pt) ++
        ref.drop (ref.length - 20) := rfl
  set header := ref.take 51 with hheader
  set iv := pySlice ref 51 67 with hiv
  set enc := lib.aesGcmEncrypt key iv (lib.zlibCompress pt) with henc
  set footer := ref.drop (ref.length - 20) with hfooter
  have hhl : header.length = 51 := by
    rw [hheader, List.length_take]
    omega
  have hivl : iv.length = 16 := by
    rw [hiv]
    show ((ref.take 67).drop 51).length = 16
    rw [List.length_drop, List.length_take]
    omega
  have hfl : footer.length = 20 := by
    rw [hfooter, List.length_drop]
    omega
  have hlen : (header ++ iv ++ enc ++ footer).length = 87 + enc.length := by
    simp [hhl, hivl, hfl]
    omega
  have hsliv : pySlice (header ++ iv ++ enc ++ footer) 51 67 = iv := by
    show ((header ++ iv ++ enc ++ footer).take 67).drop 51 = iv
    have hassoc : header ++ iv ++ enc ++ footer = (header ++ iv) ++ (enc ++ footer) := by
      simp [List.append_assoc]
    rw [hassoc, List.take_left' (by rw [List.length_append, hhl, hivl]),
      List.drop_left' hhl]
  have hslenc : pySlice (header ++ iv ++ enc ++ footer) 67
      ((header ++ iv ++ enc ++ footer).length - 20) = enc := by
    show ((header ++ iv ++ enc ++ footer).take ((header ++ iv ++ enc ++ footer).length - 20)).drop 67 = enc
    have hassoc : header ++ iv ++ enc ++ footer = ((header ++ iv) ++ enc) ++ footer := by
      simp [List.append_assoc]
    rw [hlen, hassoc,
      List.take_left' (by rw [List.length_append, List.length_append, hhl, hivl]; omega),
      List.drop_left' (by rw [List.length_append, hhl, hivl])]
  rw [hout, decrypt_crypt12, if_neg (by omega)]
  simp only [hsliv, hslenc]
  rw [hgcm, hzlib]

/-- C4 (witness): the round trip evaluated on a concrete plaintext, key and
87-byte reference container with the test library. -/
theorem C4_witness :
    decrypt_crypt12 testLib [1] (encrypt_crypt12 testLib [1] [5, 6, 7] (List.replicate 87 3)) =
      some [5, 6, 7] :=
  C4_roundtrip testLib [1] [5, 6, 7] (List.replicate 87 3)
    (by decide) (by decide) (by decide)

/-- A run of all-failing candidate offsets is skipped by the crypt14 loop. -/
lemma crypt14_try_append (lib : CryptoLib) (key iv db : Bytes) (os₁ os₂ : List Nat)
    (h : ∀ o ∈ os₁, crypt14_attempt lib key iv db o = none) :
    crypt14_try lib key iv db (os₁ ++ os₂) = crypt14_try lib key iv db os₂ := by
  induction os₁ with
  | nil => rfl
  | cons o os ih =>
    show (match crypt14_attempt lib key iv db o with
      | some out => some out
      | none => crypt14_try lib key iv db (os ++ os₂)) = crypt14_try lib key iv db os₂
    rw [h o (by simp)]
    exact ih (fun o' ho' => h o' (by simp [ho']))

/-- If every candidate offset fails, the crypt14 loop yields nothing. -/
lemma crypt14_try_none (lib : CryptoLib) (key iv db : Bytes) (os : List Nat)
    (h : ∀ o ∈ os, crypt14_attempt lib key iv db o = none) :
    crypt14_try lib key iv db os = none := by
  have := crypt14_try_append lib key iv db os [] h
  simpa using this

/-- C3: for every CRYPT14 container of length at least 195, the candidate
body-start offsets 185..195 are tried in ascending order: if every
decrypt-and-decompress attempt of every candidate fails, `decrypt_crypt14` fails
closed; and if some candidate succeeds while every smaller candidate fails,
`decrypt_crypt14` returns exactly the decompressed output of that candidate. -/
theorem C3_offset_search (lib : CryptoLib) (key db : Bytes) (h195 : 195 ≤ db.length) :
    ((∀ o ∈ crypt14_offsets, crypt14_attempt lib key (pySlice db 67 83) db o = none) →
      decrypt_crypt14 lib key db = none) ∧
    (∀ o out, o ∈ crypt14_offsets →
      crypt14_attempt lib key (pySlice db 67 83) db o = some out →
      (∀ o' ∈ crypt14_offsets, o' < o →
        crypt14_attempt lib key (pySlice db 67 83) db o' = none) →
      decrypt_crypt14 lib key db = some out) := by
  constructor
  · intro h
    rw [decrypt_crypt14, if_neg (by omega)]
    exact crypt14_try_none lib key (pySlice db 67 83) db crypt14_offsets h
  · intro o out ho hsome hbefore
    have hob : 185 ≤ o ∧ o < 196 := by
      simpa [crypt14_offsets] using List.mem_range'_1.mp ho
    have hsplit : crypt14_offsets =
        List.range' 185 (o - 185) ++ (o :: List.range' (o + 1) (195 - o)) := by
      have happ := List.range'_append 185 (o - 185) (11 - (o - 185)) 1
      have h1 : 185 + 1 * (o - 185) = o := by omega
      have h2 : 11 - (o - 185) + (o - 185) = 11 := by omega
      rw [h1, h2] at happ
      have h3 : List.range' o (11 - (o - 185)) = o :: List.range' (o + 1) (195 - o) := by
        have h4 : 11 - (o - 185) = (195 - o) + 1 := by omega
        rw [h4]
        rfl
      rw [crypt14_offsets, ← happ, h3]
    rw [decrypt_crypt14, if_neg (by omega), hsplit,
      crypt14_try_append lib key (pySlice db 67 83) db _ _ ?_]
    · show (match crypt14_attempt lib key (pySlice db 67 83) db o with
        | some r => some r
        | none => crypt14_try lib key (pySlice db 67 83) db (List.range' (o + 1) (195 - o))) =
        some out
      rw [hsome]
    · intro o' ho'
      have hb : 185 ≤ o' ∧ o' < 185 + (o - 185) := List.mem_range'_1.mp ho'
      refine hbefore o' ?_ (by omega)
      rw [crypt14_offsets]
      exact List.mem_range'_1.mpr (by omega)

/-- A concrete 215-byte CRYPT14 container for evaluating the offset search:
under `testLib` the attempts at offsets 185 and 186 fail and the attempt at
offset 187 succeeds. -/
def exC3db : Bytes := List.replicate 185 9 ++ [1, 2, 121] ++ List.replicate 27 9

/-- C3 (witness): on `exC3db` the search skips the failing offsets 185 and
186 and returns the decompressed output of offset 187. -/
theorem C3_witness :
    decrypt_crypt14 testLib [1] exC3db = some (List.replicate 7 8) :=
  (C3_offset_search testLib [1] exC3db (by decide)).2 187 (List.replicate 7 8)
    (by decide) (by decide) (by decide)

/-! ## Claims about the parser module -/

/-- Members of `insertByTs m l` are `m` or members of `l`. -/
lemma mem_insertByTs {x m : Message} {l : List Message} (hx : x ∈ insertByTs m l) :
    x = m ∨ x ∈ l := by
  induction l with
  | nil => simpa [insertByTs] using hx
  | cons y ys ih =>
    by_cases hc : m.timestamp ≤ y.timestamp
    · simp only [insertByTs, if_pos hc, List.mem_cons] at hx
      rcases hx with hx | hx | hx <;> simp [hx]
    · simp only [insertByTs, if_neg hc, List.mem_cons] at hx
      rcases hx with hx | hx
      · simp [hx]
      · rcases ih hx with hx | hx <;> simp [hx]

/-- Inserting into a timestamp-sorted list keeps it sorted. -/
lemma pairwise_insertByTs (m : Message) (l : List Message)
    (h : l.Pairwise (fun a b => a.timestamp ≤ b.timestamp)) :
    (insertByTs m l).Pairwise (fun a b => a.timestamp ≤ b.timestamp) := by
  induction l with
  | nil => simp [insertByTs]
  | cons y ys ih =>
    rcases List.pairwise_cons.mp h with ⟨hy, hys⟩
    by_cases hc : m.timestamp ≤ y.timestamp
    · rw [insertByTs, if_pos hc]
      refine List.pairwise_cons.mpr ⟨?_, h⟩
      intro b hb
      rcases List.mem_cons.mp hb with hb | hb
      · rw [hb]
        exact hc
      · exact le_trans hc (hy b hb)
    · rw [insertByTs, if_neg hc]
      refine List.pairwise_cons.mpr ⟨?_, ih hys⟩
      intro b hb
      rcases mem_insertByTs hb with hb | hb
      · rw [hb]
        exact le_of_not_le hc
      · exact hy b hb

/-- The SQL `ORDER BY timestamp ASC` model produces a sorted list. -/
lemma pairwise_orderByTsAsc (l : List Message) :
    (orderByTsAsc l).Pairwise (fun a b => a.timestamp ≤ b.timestamp) := by
  induction l with
  | nil => simp [orderByTsAsc]
  | cons x xs ih => exact pairwise_insertByTs x (orderByTsAsc xs) ih

/-- Every executed message query yields a timestamp-sorted result. -/
lemma pairwise_run_message_query (t : List Message) (chat_jid : Option (List Char))
    (limit : Option Nat) :
    (run_message_query t chat_jid limit).Pairwise (fun a b => a.timestamp ≤ b.timestamp) := by
  rw [run_message_query]
  by_cases hl : pyTruthyNat limit
  · rw [if_pos hl]
    exact (pairwise_orderByTsAsc _).sublist (List.take_sublist _ _)
  · rw [if_neg hl]
    exact pairwise_orderByTsAsc _

/-- C7: whenever `get_messages` returns a result — for every database,
every `chat_jid` filter and every `limit` — the returned messages are in
ascending `timestamp` order (the `ORDER BY timestamp ASC` of every query
variant). -/
theorem C7_messages_sorted (db : MessagesDb) (chat_jid : Option (List Char))
    (limit : Option Nat) (msgs : List Message)
    (h : get_messages db chat_jid limit = Except.ok msgs) :
    msgs.Pairwise (fun a b => a.timestamp ≤ b.timestamp) := by
  rw [get_messages] at h
  rcases h1 : db.q_message_full with t | _ | _ <;> rw [h1] at h
  · cases h
    exact pairwise_run_message_query t chat_jid limit
  · rcases h2 : db.q_message_simple with t | _ | _ <;> rw [h2] at h
    · cases h
      exact pairwise_run_message_query t chat_jid limit
    · rcases h3 : db.q_messages_legacy with t | _ | _ <;> rw [h3] at h
      · cases h
        exact pairwise_run_message_query t chat_jid limit
      · cases h
        exact List.Pairwise.nil
      · exact absurd h (by simp)
    · exact absurd h (by simp)
  · exact absurd h (by simp)

/-- A concrete message with timestamp 50. -/
def exC7msgA : Message :=
  { message_id := 1
    chat_jid := "111@s.whatsapp.net".toList
    timestamp := 50
    from_me := false
    message_text := none
    media_type := none
    media_path := none
    media_caption := none
    quoted_message_id := none
    remote_resource := none
    status := none }

/-- A concrete message with timestamp 10. -/
def exC7msgB : Message :=
  { message_id := 2
    chat_jid := "111@s.whatsapp.net".toList
    timestamp := 10
    from_me := true
    message_text := none
    media_type := none
    media_path := none
    media_caption := none
    quoted_message_id := none
    remote_resource := none
    status := none }

/-- A concrete message database whose first variant holds the two messages
out of timestamp order. -/
def exC7db : MessagesDb :=
  { q_message_full := .rows [exC7msgA, exC7msgB]
    q_message_simple := .schemaError
    q_messages_legacy := .schemaError }

/-- C7 (witness): on `exC7db` the messages come back reordered ascending by
timestamp, and the theorem applies to the returned list. -/
theorem C7_witness :
    get_messages exC7db none none = Except.ok [exC7msgB, exC7msgA] ∧
    List.Pairwise (fun a b : Message => a.timestamp ≤ b.timestamp) [exC7msgB, exC7msgA] :=
  ⟨rfl, C7_messages_sorted exC7db none none [exC7msgB, exC7msgA] rfl⟩

/-- A chat row with only a jid, as used by the C8 example databases. -/
def mkChatRow (jid : List Char) : ChatRow :=
  { jid := jid
    display_name := none
    last_message_timestamp := none
    message_count := 0 }

/-- A concrete chat database in which the jid of the only chat ends in
`@s.whatsapp.net` but contains the substring `group`. -/
def exC8ceDb : ChatsDb :=
  { q_simple := .rows [mkChatRow "mygroup@s.whatsapp.net".toList]
    q_modern := .schemaError
    q_legacy := .schemaError
    contacts_cache := fun _ => none
    participants := fun _ => [] }

/-- The chat `get_chats` produces from `exC8ceDb`. -/
def exC8ceChat : Chat := rowToChat exC8ceDb (mkChatRow "mygroup@s.whatsapp.net".toList)

/-- C8 (counterexample): the chat `mygroup@s.whatsapp.net` is flagged as a
group although its jid does not end in `@g.us` — the code also treats any
jid whose lowercasing contains `group` as a group chat, so `is_group` is
not equivalent to the `@g.us` suffix. -/
theorem C8_counterexample :
    get_chats exC8ceDb = Except.ok [exC8ceChat] ∧
    exC8ceChat.is_group = true ∧
    List.isSuffixOf "@g.us".toList exC8ceChat.jid = false :=
  ⟨rfl, by decide, by decide⟩

/-- C8 (amended): for every chat produced by `get_chats`, `is_group` is true
iff the jid ends with `@g.us` or its lowercasing contains the substring
`group`; and participants are queried exactly for the chats so flagged
(all others get the empty participant list). -/
theorem C8_is_group (db : ChatsDb) (chats : List Chat)
    (h : get_chats db = Except.ok chats) :
    ∀ c ∈ chats,
      c.is_group =
        (List.isSuffixOf "@g.us".toList c.jid || pyContains "group".toList (pyLower c.jid)) ∧
      c.participants = (if c.is_group then db.participants c.jid else []) := by
  have hrow : ∀ r : ChatRow, ∀ c, c = rowToChat db r →
      c.is_group =
        (List.isSuffixOf "@g.us".toList c.jid || pyContains "group".toList (pyLower c.jid)) ∧
      c.participants = (if c.is_group then db.participants c.jid else []) := by
    intro r c hc
    subst hc
    constructor
    · rfl
    · rfl
  have hmap : ∀ rs : List ChatRow, chats = rs.map (rowToChat db) →
      ∀ c ∈ chats,
        c.is_group =
          (List.isSuffixOf "@g.us".toList c.jid || pyContains "group".toList (pyLower c.jid)) ∧
        c.participants = (if c.is_group then db.participants c.jid else []) := by
    intro rs hrs c hc
    rw [hrs] at hc
    rcases List.mem_map.mp hc with ⟨r, _, hr⟩
    exact hrow r c hr.symm
  rw [get_chats] at h
  rcases h1 : db.q_simple with rs | _ | _ <;> rw [h1] at h
  · cases h
    exact hmap rs rfl
  · rcases h2 : db.q_modern with rs | _ | _ <;> rw [h2] at h
    · cases h
      exact hmap rs rfl
    · rcases h3 : db.q_legacy with rs | _ | _ <;> rw [h3] at h
      · cases h
        exact hmap rs rfl
      · cases h
        intro c hc
        exact absurd hc (by simp)
      · exact absurd h (by simp)
    · exact absurd h (by simp)
  · exact absurd h (by simp)

/-- A concrete chat database with one genuine group chat. -/
def exC8db : ChatsDb :=
  { q_simple := .rows [mkChatRow "12345-678@g.us".toList]
    q_modern := .schemaError
    q_legacy := .schemaError
    contacts_cache := fun _ => none
    participants := fun _ => ["999@s.whatsapp.net".toList] }

/-- The chat `get_chats` produces from `exC8db`. -/
def exC8chat : Chat := rowToChat exC8db (mkChatRow "12345-678@g.us".toList)

/-- C8 (witness): the amended theorem evaluated on the concrete group chat
of `exC8db`. -/
theorem C8_witness :
    exC8chat.is_group =
      (List.isSuffixOf "@g.us".toList exC8chat.jid ||
        pyContains "group".toList (pyLower exC8chat.jid)) ∧
    exC8chat.participants =
      (if exC8chat.is_group then exC8db.participants exC8chat.jid else []) :=
  C8_is_group exC8db [exC8chat] rfl exC8chat (by simp)

/-- C6 (amended): if every schema variant of `get_chats` fails with a
schema error it returns the empty list, and likewise for `get_call_logs`;
a database-level error other than a schema mismatch aborts `get_chats`
with `ParseError` at whichever probing stage it occurs — but
`get_call_logs` never aborts: its outer handler swallows the error and the
accumulated (empty) list is returned. -/
theorem C6_error_handling (cdb : ChatsDb) (ldb : CallLogsDb) :
    (cdb.q_simple = .schemaError → cdb.q_modern = .schemaError →
      cdb.q_legacy = .schemaError → get_chats cdb = Except.ok []) ∧
    (cdb.q_simple = .dbError → get_chats cdb = Except.error .parseError) ∧
    (cdb.q_simple = .schemaError → cdb.q_modern = .dbError →
      get_chats cdb = Except.error .parseError) ∧
    (cdb.q_simple = .schemaError → cdb.q_modern = .schemaError →
      cdb.q_legacy = .dbError → get_chats cdb = Except.error .parseError) ∧
    (ldb.q_call_log = .schemaError → ldb.q_calls = .schemaError →
      get_call_logs ldb = Except.ok []) ∧
    (get_call_logs ldb).isOk = true := by
  refine ⟨fun h1 h2 h3 => ?_, fun h1 => ?_, fun h1 h2 => ?_, fun h1 h2 h3 => ?_,
    fun h1 h2 => ?_, ?_⟩
  · rw [get_chats, h1, h2, h3]
  · rw [get_chats, h1]
  · rw [get_chats, h1, h2]
  · rw [get_chats, h1, h2, h3]
  · rw [get_call_logs, h1, h2]
  · rw [get_call_logs]
    rcases ldb.q_call_log with _ | _ | _
    · rfl
    · rcases ldb.q_calls with _ | _ | _ <;> rfl
    · rfl

/-- A call-log database whose first query variant fails with a non-schema
database error. -/
def exC6calls : CallLogsDb :=
  { q_call_log := .dbError
    q_calls := .schemaError }

/-- C6 (counterexample): on `exC6calls` the first call-log query raises a
database-level error that is not a schema mismatch, yet `get_call_logs`
returns the empty list instead of aborting with `ParseError` — the claimed
"any other database-level error makes the operation abort" fails for
`get_call_logs`. -/
theorem C6_counterexample :
    get_call_logs exC6calls = Except.ok [] ∧
    (get_call_logs exC6calls).isOk = true :=
  ⟨rfl, rfl⟩

/-- A chats database whose every variant misses the schema. -/
def exC6chatsMiss : ChatsDb :=
  { q_simple := .schemaError
    q_modern := .schemaError
    q_legacy := .schemaError
    contacts_cache := fun _ => none
    participants := fun _ => [] }

/-- A chats database whose first variant fails with a non-schema error. -/
def exC6chatsErr : ChatsDb :=
  { q_simple := .dbError
    q_modern := .schemaError
    q_legacy := .schemaError
    contacts_cache := fun _ => none
    participants := fun _ => [] }

/-- A call-log database whose both variants miss the schema. -/
def exC6callsMiss : CallLogsDb :=
  { q_call_log := .schemaError
    q_calls := .schemaError }

/-- C6 (witness): the amended theorem evaluated on concrete databases for
each branch — schema exhaustion of both operations, a non-schema abort of
`get_chats`, and the non-aborting `get_call_logs`. -/
theorem C6_witness :
    get_chats exC6chatsMiss = Except.ok [] ∧
    get_chats exC6chatsErr = Except.error PErr.parseError ∧
    get_call_logs exC6callsMiss = Except.ok [] ∧
    (get_call_logs exC6callsMiss).isOk = true :=
  ⟨(C6_error_handling exC6chatsMiss exC6callsMiss).1 rfl rfl rfl,
   (C6_error_handling exC6chatsErr exC6callsMiss).2.1 rfl,
   (C6_error_handling exC6chatsMiss exC6callsMiss).2.2.2.2.1 rfl rfl,
   (C6_error_handling exC6chatsMiss exC6callsMiss).2.2.2.2.2⟩

/-- The append step of the jid-inference loop of `get_contacts`. -/
def contact_fold_step (acc : List Contact) (jid : List Char) : List Contact :=
  if acc.any (fun c => c.jid = jid) then acc else acc ++ [mk_contact jid none]

/-- A jid already carried by some accumulated contact stays carried through
the inference loop. -/
lemma contacts_fold_preserves (jids : List (List Char)) (acc : List Contact)
    (j : List Char) (h : acc.any (fun c => c.jid = j) = true) :
    (jids.foldl contact_fold_step acc).any (fun c => c.jid = j) = true := by
  induction jids generalizing acc with
  | nil => simpa using h
  | cons x xs ih =>
    refine ih (contact_fold_step acc x) ?_
    rw [contact_fold_step]
    by_cases hx : acc.any (fun c => c.jid = x) = true
    · rw [if_pos hx]
      exact h
    · rw [if_neg hx, List.any_append]
      simp [h]

/-- Every jid fed to the inference loop ends up carried by some contact. -/
lemma contacts_fold_mem (jids : List (List Char)) (acc : List Contact)
    (j : List Char) (hj : j ∈ jids) :
    (jids.foldl contact_fold_step acc).any (fun c => c.jid = j) = true := by
  induction jids generalizing acc with
  | nil => cases hj
  | cons x xs ih =>
    rcases List.mem_cons.mp hj with hj | hj
    · subst hj
      refine contacts_fold_preserves xs (contact_fold_step acc j) j ?_
      rw [contact_fold_step]
      by_cases hx : acc.any (fun c => c.jid = j) = true
      · rw [if_pos hx]
        exact hx
      · rw [if_neg hx, List.any_append]
        simp [mk_contact]
    · exact ih (contact_fold_step acc x) hj

/-- Restating `get_contacts` through the named fold step (definitional). -/
lemma get_contacts_eq (db : GetContactsDb) (msgs : List Message)
    (cjids : List (List Char)) (hm : db.message_table = some msgs)
    (hc : db.contacts_table = some cjids) :
    get_contacts db =
      (message_union_jids msgs cjids).foldl contact_fold_step
        (match db.wa_db with
          | none => []
          | some wa => wa_contacts_part wa) := by
  rw [get_contacts, hm, hc]
  rfl

/-- A message whose chat jid is inferred by the C9 example databases. -/
def exC9msg : Message :=
  { message_id := 3
    chat_jid := "555@s.whatsapp.net".toList
    timestamp := 0
    from_me := false
    message_text := none
    media_type := none
    media_path := none
    media_caption := none
    quoted_message_id := none
    remote_resource := none
    status := none }

/-- A msgstore database holding `exC9msg` in its `message` table but having
no `contacts` table, with no `wa.db` supplied. -/
def exC9ceDb : GetContactsDb :=
  { wa_db := none
    message_table := some [exC9msg]
    contacts_table := none }

/-- C9 (counterexample): `exC9ceDb` contains a message table, the chat jid
of its message has no contact entry anywhere, yet `get_contacts` returns no
contact at all for it — the inference query names a `contacts` table inside
`msgstore.db`, so on a database without one it fails with
`OperationalError` and is silently skipped. -/
theorem C9_counterexample :
    exC9ceDb.message_table = some [exC9msg] ∧
    get_contacts exC9ceDb = [] ∧
    (get_contacts exC9ceDb).any (fun c => c.jid = exC9msg.chat_jid) = false :=
  ⟨rfl, rfl, rfl⟩

/-- C9 (amended): for every database containing both a `message` table and
a `contacts` table (in `msgstore.db` itself), every jid appearing as a
chat jid of a message — other than the first jid of that `contacts` table,
which the `LIMIT 1` subquery excludes — resolves to at least one returned
Contact. -/
theorem C9_contact_inference (db : GetContactsDb) (msgs : List Message)
    (cjids : List (List Char)) (m : Message)
    (hm : db.message_table = some msgs) (hc : db.contacts_table = some cjids)
    (hmem : m ∈ msgs) (hexcl : (cjids.take 1).contains m.chat_jid = false) :
    (get_contacts db).any (fun c => c.jid = m.chat_jid) = true := by
  rw [get_contacts_eq db msgs cjids hm hc]
  refine contacts_fold_mem _ _ _ ?_
  rw [message_union_jids, List.mem_dedup]
  refine List.mem_filter.mpr ⟨List.mem_map.mpr ⟨m, hmem, rfl⟩, ?_⟩
  show (!(cjids.take 1).contains m.chat_jid) = true
  rw [hexcl]
  rfl

/-- A msgstore database with both a `message` table (holding `exC9msg`) and
an empty `contacts` table. -/
def exC9db : GetContactsDb :=
  { wa_db := none
    message_table := some [exC9msg]
    contacts_table := some [] }

/-- C9 (witness): the amended theorem evaluated on `exC9db` — the chat jid
of the message resolves to a returned contact. -/
theorem C9_witness :
    (get_contacts exC9db).any (fun c => c.jid = exC9msg.chat_jid) = true :=
  C9_contact_inference exC9db [exC9msg] [] exC9msg rfl rfl (by simp) rfl

end ForensicsToolkit
